import Mathlib

/-!
Verification of the CSV-to-PDF interview report service (`report_with_api.py`,
`deneme_logo.py`, `deneme_weasyprint.py`) against its natural-language
specification.  The Python source is shallowly embedded: pure helpers become
Lean functions, Python strings become `String` (or `List Char` where
character-level reasoning is needed), CSV numerics become `Rat`, fallible
steps return `Except`, and the request handler's `try/except` structure is
made explicit.  External libraries (pandas parsing, BeautifulSoup parsing and
serialization, matplotlib PNG rendering, WeasyPrint, the Gemini model call)
are parameters of the embedding, exactly at the call boundaries the source
uses them.
-/

namespace Rapor

/-! ## Python primitives -/

/-- Truncation toward zero, the behaviour of the Python builtin `int(...)`
applied to a numeric value (used at `int(row['ekran_disi_sayisi'])` and
`int(row['tip'])`, report_with_api.py lines 472 and 474). -/
def pyInt (q : Rat) : Int :=
  if 0 ≤ q then q.floor else q.ceil

/-- Round a rational to the nearest integer, ties to even: the behaviour of
the Python builtin `round(x)` (idealized over exact rationals). -/
def pyRoundInt (q : Rat) : Int :=
  let f := q.floor
  let r := q - (f : Rat)
  if r < 1/2 then f
  else if 1/2 < r then f + 1
  else if f % 2 = 0 then f else f + 1

/-- The Python call `round(x, 2)`: round to 2 decimal places, ties to even
(idealized over exact rationals).  Used on every numeric field of the
selected row, report_with_api.py lines 463-471. -/
def round2 (q : Rat) : Rat :=
  (pyRoundInt (q * 100) : Rat) / 100

/-- Python `str.strip()` on a code-point list: drop whitespace from both
ends. -/
def pyStrip (s : List Char) : List Char :=
  ((s.dropWhile Char.isWhitespace).reverse.dropWhile Char.isWhitespace).reverse

/-- Python `str.removeprefix(t)`: drop `t` from the front when it is a
prefix, otherwise return the string unchanged. -/
def removePre (t s : List Char) : List Char :=
  if t.isPrefixOf s then s.drop t.length else s

/-- Python `str.removesuffix(t)`: drop `t` from the end when it is a suffix,
otherwise return the string unchanged. -/
def removeSuf (t s : List Char) : List Char :=
  if t.isSuffixOf s then s.take (s.length - t.length) else s

/-- Python `str.endswith(t)` (case-sensitive), the filename check of
report_with_api.py line 424, on code points. -/
def pyEndsWith (s t : String) : Bool :=
  t.data.isSuffixOf s.data

/-! ## Base64 (the `base64.b64encode` / `base64.b64decode` pair used by
`get_image_base64`).  Bytes are `Nat`s below 256. -/

/-- The 64-character base64 alphabet, in index order. -/
def b64Alphabet : List Char :=
  ['A','B','C','D','E','F','G','H','I','J','K','L','M','N','O','P',
   'Q','R','S','T','U','V','W','X','Y','Z',
   'a','b','c','d','e','f','g','h','i','j','k','l','m','n','o','p',
   'q','r','s','t','u','v','w','x','y','z',
   '0','1','2','3','4','5','6','7','8','9','+','/']

/-- Character of a six-bit value. -/
def b64char (i : Nat) : Char := b64Alphabet.getD i 'A'

/-- Index of a base64 character in the alphabet. -/
def b64index (c : Char) : Nat := b64Alphabet.indexOf c

/-- Standard base64 encoding of a byte sequence, with `=` padding, as
performed by Python `base64.b64encode`. -/
def b64encode : List Nat → List Char
  | [] => []
  | [a] => [b64char (a / 4), b64char (a % 4 * 16), '=', '=']
  | [a, b] => [b64char (a / 4), b64char (a % 4 * 16 + b / 16), b64char (b % 16 * 4), '=']
  | a :: b :: c :: rest =>
      b64char (a / 4) :: b64char (a % 4 * 16 + b / 16) ::
      b64char (b % 16 * 4 + c / 64) :: b64char (c % 64) :: b64encode rest

/-- Standard base64 decoding (quartets of characters to byte triples,
honouring `=` padding), as performed by Python `base64.b64decode`. -/
def b64decode : List Char → List Nat
  | c0 :: c1 :: c2 :: c3 :: rest =>
      let s0 := b64index c0
      let s1 := b64index c1
      if c2 = '=' then [s0 * 4 + s1 / 16]
      else
        let s2 := b64index c2
        if c3 = '=' then [s0 * 4 + s1 / 16, s1 % 16 * 16 + s2 / 4]
        else (s0 * 4 + s1 / 16) :: (s1 % 16 * 16 + s2 / 4) ::
             (s2 % 4 * 64 + b64index c3) :: b64decode rest
  | _ => []

/-! ## Asset Encoder (`get_image_base64`, report_with_api.py lines 36-54 and
deneme_logo.py lines 6-19).  The filesystem read at the resolved path is the
external boundary: `fs` maps a path to its read outcome. -/

/-- Outcome of `open(path, "rb").read()`: the file bytes, a
`FileNotFoundError`, or any other read failure. -/
inductive ReadResult where
  | content (bytes : List Nat)
  | notFound
  | readError (msg : String)
deriving DecidableEq

/-- Embedding of `get_image_base64`: on success return the Base64 text of
the file bytes; on `FileNotFoundError` or any other exception, log and
return the empty string. -/
def get_image_base64 (fs : String → ReadResult) (image_name : String) : String :=
  match fs image_name with
  | .content bytes => String.mk (b64encode bytes)
  | .notFound => ""
  | .readError _ => ""

/-! ## Chart Renderer (`create_emotion_charts_html`, report_with_api.py
lines 56-142).  The matplotlib PNG for one chart is a function of the
emotion name and the percentage value only, so one rendered cell is
embedded as the (key, display name, value) triple the HTML cell content is
built from; `none` stands for the empty padding cell
`<td style="width: 25%;"></td>`. -/

/-- One rendered chart cell: the emotion key it came from, its Turkish
display label, and the percentage shown on the pie. -/
structure ChartCell where
  key : String
  name : String
  value : Rat
deriving DecidableEq

/-- The `labels_map` dictionary of the source. -/
def labels_map : List (String × String) :=
  [("duygu_mutlu_%", "Mutlu"), ("duygu_kizgin_%", "Kızgın"),
   ("duygu_igrenme_%", "İğrenme"), ("duygu_korku_%", "Korku"),
   ("duygu_uzgun_%", "Üzgün"), ("duygu_saskin_%", "Şaşkın"),
   ("duygu_dogal_%", "Doğal")]

/-- The `emotion_keys_ordered` list of the source: the canonical rendering
order happy, angry, disgust, fear, sad, surprised, neutral. -/
def emotion_keys_ordered : List String :=
  ["duygu_mutlu_%", "duygu_kizgin_%", "duygu_igrenme_%", "duygu_korku_%",
   "duygu_uzgun_%", "duygu_saskin_%", "duygu_dogal_%"]

/-- The loop `for key in emotion_keys_ordered: if key not in emotion_data:
continue; ...` that builds `charts_content_list`.  The input dictionary is
embedded as an association list consulted only through lookup. -/
def chartsContentList (emotion_data : List (String × Rat)) : List ChartCell :=
  emotion_keys_ordered.filterMap fun key =>
    match emotion_data.lookup key with
    | none => none
    | some value => some ⟨key, (labels_map.lookup key).getD "Bilinmeyen", value⟩

/-- The table assembly loop `for i in range(0, len(charts_content_list), 4)`:
rows of exactly 4 cells, the cells past the end of the list emitted empty. -/
def makeRows : List ChartCell → List (List (Option ChartCell))
  | [] => []
  | [a] => [[some a, none, none, none]]
  | [a, b] => [[some a, some b, none, none]]
  | [a, b, c] => [[some a, some b, some c, none]]
  | a :: b :: c :: d :: rest => [some a, some b, some c, some d] :: makeRows rest

/-- Result of `create_emotion_charts_html`: either the fallback paragraph
(no data) or the 4-column table grid. -/
inductive ChartsHtml where
  | noData (msg : String)
  | table (rows : List (List (Option ChartCell)))
deriving DecidableEq

/-- Embedding of `create_emotion_charts_html`: build the cell list in
canonical key order, return the fallback paragraph when it is empty,
otherwise the 4-column table. -/
def create_emotion_charts_html (emotion_data : List (String × Rat)) : ChartsHtml :=
  let cells := chartsContentList emotion_data
  if cells.isEmpty then ChartsHtml.noData "Görselleştirilecek duygu verisi bulunamadı."
  else ChartsHtml.table (makeRows cells)

/-! ## Placeholder cleanup (report_with_api.py lines 490-504).  A paragraph
element is embedded as its `p_tag.string` value: `none` when the tag has no
single string child (the loop skips it), otherwise the code points of the
text.  `cleanPara` is the body of the `for p_tag in soup.find_all('p')`
loop for one paragraph. -/

/-- The `placeholders_to_remove` list of the source: the five double-brace
tokens of the report template. -/
def placeholders_to_remove : List (List Char) :=
  ["\x7b\x7bgenel_bakis_icerik\x7d\x7d".data,
   "\x7b\x7bduygu_analizi_yorumu\x7d\x7d".data,
   "\x7b\x7bdikkat_analizi_yorumu\x7d\x7d".data,
   "\x7b\x7bgenel_degerlendirme_icerik\x7d\x7d".data,
   "\x7b\x7bsonuclar_oneriler_icerik\x7d\x7d".data]

/-- One iteration of the cleanup loop: strip the text, and when it starts
with one of the tokens, replace the paragraph text by what follows the
first matching token, stripped; otherwise leave the paragraph unchanged. -/
def cleanPara (s : List Char) : List Char :=
  let t := pyStrip s
  match placeholders_to_remove.find? (fun ph => ph.isPrefixOf t) with
  | some ph => pyStrip (t.drop ph.length)
  | none => s

/-- The whole cleanup pass over the document's paragraphs. -/
def cleanParas (paras : List (Option (List Char))) : List (Option (List Char)) :=
  paras.map (Option.map cleanPara)

/-! ## QA Formatter (`format_qa_section`, report_with_api.py lines 145-157). -/

/-- Embedding of `format_qa_section`: one bordered HTML block per
(question, answer) pair, accumulated in order. -/
def format_qa_section (qa_list : List (String × String)) : String :=
  qa_list.foldl (fun html item =>
    html ++ "\n        <div class=\"qa-item\" style=\"margin-bottom: 15px; padding: 12px; border: 1px solid #e0e0e0; border-radius: 8px; background-color: #f9f9f9;\">\n            <p style=\"font-weight: bold; color: #34495e;\">Soru: " ++
    item.1 ++ "</p>\n            <p style=\"color: #555; margin-top: 5px;\">Cevap: " ++
    item.2 ++ "</p>\n        </div>\n        ") ""

/-! ## Data model of the request handler (report_with_api.py lines 422-546).
One CSV data row carries the fifteen required columns; Lean field names
drop the `_%` suffix of the seven emotion columns.  Numeric cells are
rationals (pandas parses them as floats; the embedding idealizes floats as
exact rationals). -/

/-- One parsed CSV data row. -/
structure Row where
  kisi_adi : String
  mulakat_adi : String
  llm_skoru : Rat
  duygu_mutlu : Rat
  duygu_kizgin : Rat
  duygu_igrenme : Rat
  duygu_korku : Rat
  duygu_uzgun : Rat
  duygu_saskin : Rat
  duygu_dogal : Rat
  ekran_disi_sure_sn : Rat
  ekran_disi_sayisi : Rat
  soru : String
  cevap : String
  tip : Rat
deriving DecidableEq

/-- A parsed dataset: the header columns and the data rows.  When a
required column is absent from `cols` the handler never touches `rows`, so
rows always carry all fields. -/
structure DataFrame where
  cols : List String
  rows : List Row
deriving DecidableEq

/-- The `required_columns` list of the source (line 431). -/
def required_columns : List String :=
  ["kisi_adi", "mulakat_adi", "llm_skoru", "duygu_mutlu_%", "duygu_kizgin_%",
   "duygu_igrenme_%", "duygu_korku_%", "duygu_uzgun_%", "duygu_saskin_%",
   "duygu_dogal_%", "ekran_disi_sure_sn", "ekran_disi_sayisi", "soru", "cevap", "tip"]

/-- The `current_row_data` dictionary built from the selected row
(lines 460-475): every numeric field rounded to 2 decimals, the off-screen
count and the variant converted with `int(...)`, and the single
(question, answer) pair of that row. -/
structure RowData where
  kisi_adi : String
  mulakat_adi : String
  llm_skoru : Rat
  duygu_mutlu : Rat
  duygu_kizgin : Rat
  duygu_igrenme : Rat
  duygu_korku : Rat
  duygu_uzgun : Rat
  duygu_saskin : Rat
  duygu_dogal : Rat
  ekran_disi_sure_sn : Rat
  ekran_disi_sayisi : Int
  soru_cevap : List (String × String)
  tip : Int
deriving DecidableEq

/-- Lines 460-475: construction of `current_row_data` from the row. -/
def buildRowData (row : Row) : RowData :=
  { kisi_adi := row.kisi_adi
    mulakat_adi := row.mulakat_adi
    llm_skoru := round2 row.llm_skoru
    duygu_mutlu := round2 row.duygu_mutlu
    duygu_kizgin := round2 row.duygu_kizgin
    duygu_igrenme := round2 row.duygu_igrenme
    duygu_korku := round2 row.duygu_korku
    duygu_uzgun := round2 row.duygu_uzgun
    duygu_saskin := round2 row.duygu_saskin
    duygu_dogal := round2 row.duygu_dogal
    ekran_disi_sure_sn := round2 row.ekran_disi_sure_sn
    ekran_disi_sayisi := pyInt row.ekran_disi_sayisi
    soru_cevap := [(row.soru, row.cevap)]
    tip := pyInt row.tip }

/-- The bindings under which `create_emotion_charts_html(current_row_data)`
(line 508) consults its dictionary argument: the renderer looks up only
the seven emotion keys, and these are their values in `current_row_data`. -/
def rowDataEmotions (rd : RowData) : List (String × Rat) :=
  [("duygu_mutlu_%", rd.duygu_mutlu), ("duygu_kizgin_%", rd.duygu_kizgin),
   ("duygu_igrenme_%", rd.duygu_igrenme), ("duygu_korku_%", rd.duygu_korku),
   ("duygu_uzgun_%", rd.duygu_uzgun), ("duygu_saskin_%", rd.duygu_saskin),
   ("duygu_dogal_%", rd.duygu_dogal)]

/-! ## Exceptions of the handler body.  The `try:` block of
`generate_report` can raise: an `HTTPException` from its own validation
(lines 438, 453), `pandas.errors.EmptyDataError` from `read_csv`, an
`IndexError` from `df.iloc[1]`, an `UnboundLocalError` from
`generate_llm_prompt`, a `ValueError` from `create_pdf_from_html`, or any
other library failure.  `excStr` is Python `str(e)` for each (Starlette
renders an HTTPException as "status: detail"). -/

inductive Exc where
  | httpException (status : Nat) (detail : String)
  | pdEmptyDataError
  | indexError (msg : String)
  | unboundLocalError (msg : String)
  | valueError (msg : String)
  | genericError (msg : String)
deriving DecidableEq

/-- Python `str(e)` of each modelled exception. -/
def excStr : Exc → String
  | .httpException status detail => toString status ++ ": " ++ detail
  | .pdEmptyDataError => "No columns to parse from file"
  | .indexError msg => msg
  | .unboundLocalError msg => msg
  | .valueError msg => msg
  | .genericError msg => msg

/-! ## Report Template & Prompt Builder (`generate_llm_prompt`,
report_with_api.py lines 160-401).  The template and instruction strings
are reproduced at body level: the inert style header and the long static
Turkish instruction prose, which no claim consults, are carried in
abbreviated form; the interpolated data values, the five placeholder
tokens, the two slot elements, the pre-filled QA section and the branch
structure on `tip` are kept exactly. -/

/-- The HTML template of `generate_llm_prompt` (lines 165-337), at body
level. -/
def html_template (row_data : RowData) (formatted_qa_html : String) : String :=
  "<!DOCTYPE html><html><head><style>(static styles)</style></head><body>" ++
  "<div class=\"page-footer\">DeepWork Bilişim Teknolojileri A.Ş.</div>" ++
  "<div class=\"watermark-image-container\" id=\"watermark-placeholder\"></div>" ++
  "<h1>" ++ row_data.kisi_adi ++ " - Mülakat Değerlendirme Raporu</h1>" ++
  "<div class=\"section\"><h2>1) Genel Bakış</h2><p>\x7b\x7bgenel_bakis_icerik\x7d\x7d</p></div>" ++
  "<div class=\"section\"><h2>2) Analiz</h2><h3>Duygu Analizi:</h3><div id=\"pie-chart-placeholder\"></div><p>\x7b\x7bduygu_analizi_yorumu\x7d\x7d</p><h3>Dikkat Analizi</h3><p>\x7b\x7bdikkat_analizi_yorumu\x7d\x7d</p></div>" ++
  "<div class=\"section\"><h2>3) Genel Değerlendirme</h2><p>\x7b\x7bgenel_degerlendirme_icerik\x7d\x7d</p></div>" ++
  "<div class=\"section\"><h2>4) Sorular ve Cevaplar</h2>" ++ formatted_qa_html ++ "</div>" ++
  "<div class=\"section\"><h2>5) Sonuçlar ve Öneriler</h2><p>\x7b\x7bsonuclar_oneriler_icerik\x7d\x7d</p></div>" ++
  "</body></html>"

/-- The candidate-interview instruction text (lines 340-364), data lines
kept exactly, static prose abbreviated. -/
def prompt_instructions_tip0 (row_data : RowData) (tmpl : String) : String :=
  "Lütfen aşağıdaki HTML şablonunu verilen mülakat verilerine göre doldurarak eksiksiz bir HTML raporu oluştur.\nVeriler:\n- Aday Adı: " ++
  row_data.kisi_adi ++ "\n- Mülakat Adı: " ++ row_data.mulakat_adi ++
  "\n- LLM Skoru: " ++ toString row_data.llm_skoru ++
  "\n- Duygu Analizi (%): Mutlu " ++ toString row_data.duygu_mutlu ++
  ", Kızgın " ++ toString row_data.duygu_kizgin ++
  ", İğrenme " ++ toString row_data.duygu_igrenme ++
  ", Korku " ++ toString row_data.duygu_korku ++
  ", Üzgün " ++ toString row_data.duygu_uzgun ++
  ", Şaşkın " ++ toString row_data.duygu_saskin ++
  ", Doğal " ++ toString row_data.duygu_dogal ++
  "\n- Dikkat Analizi: Ekran Dışı Süre " ++ toString row_data.ekran_disi_sure_sn ++
  " sn, Ekran Dışı Bakış Sayısı " ++ toString row_data.ekran_disi_sayisi ++
  "\n(talimatlar: beş yer tutucu alanın doldurulması, sadece Türkçe, HR okuyucusuna öneri)\nİşte doldurman gereken şablon:\n" ++ tmpl

/-- The customer-interview instruction text (lines 367-399), data lines
kept exactly, static prose abbreviated. -/
def prompt_instructions_tip1 (row_data : RowData) (tmpl : String) : String :=
  "Lütfen aşağıdaki HTML şablonunu, sağlanan müşteri röportajı verilerini kullanarak eksiksiz ve profesyonel bir rapora dönüştür.\nVerilen Röportaj Verileri:\n- Müşteri Adı: " ++
  row_data.kisi_adi ++ "\n- Röportaj Adı: " ++ row_data.mulakat_adi ++
  "\n- Duygu Analizi Yüzdeleri: Mutlu %" ++ toString row_data.duygu_mutlu ++
  ", Kızgın %" ++ toString row_data.duygu_kizgin ++
  ", İğrenme %" ++ toString row_data.duygu_igrenme ++
  ", Korku %" ++ toString row_data.duygu_korku ++
  ", Üzgün %" ++ toString row_data.duygu_uzgun ++
  ", Şaşkın %" ++ toString row_data.duygu_saskin ++
  ", Doğal %" ++ toString row_data.duygu_dogal ++
  "\n- Dikkat Analizi Verileri: Toplam Ekran Dışı Süre " ++ toString row_data.ekran_disi_sure_sn ++
  " saniye, Toplam Ekran Dışı Bakış Sayısı " ++ toString row_data.ekran_disi_sayisi ++
  "\n(talimatlar: beş yer tutucu alanın doldurulması, sadece Türkçe, müşteri raporu, aday ve mülakattan bahsetme)\nİşte doldurman gereken şablon:\n" ++ tmpl

/-- Embedding of `generate_llm_prompt` (lines 160-401): the local
`prompt_instructions` is assigned only under `tip == 0` or `tip == 1`;
`return prompt_instructions` raises `UnboundLocalError` for every other
variant value. -/
def generate_llm_prompt (row_data : RowData) (formatted_qa_html : String) : Except Exc String :=
  if row_data.tip = 0 then
    Except.ok (prompt_instructions_tip0 row_data (html_template row_data formatted_qa_html))
  else if row_data.tip = 1 then
    Except.ok (prompt_instructions_tip1 row_data (html_template row_data formatted_qa_html))
  else
    Except.error (Exc.unboundLocalError
      "cannot access local variable prompt_instructions where it is not associated with a value")

/-! ## PDF Renderer and HTTP endpoint. -/

/-- Embedding of `create_pdf_from_html` (lines 404-417): WeasyPrint itself
is the external parameter `wp`; its failure is logged and re-raised as a
`ValueError` carrying the underlying message. -/
def create_pdf_from_html (wp : String → Except String String) (html_content : String) :
    Except Exc String :=
  match wp html_content with
  | Except.ok buf => Except.ok buf
  | Except.error e =>
      Except.error (Exc.valueError ("PDF oluşturulurken WeasyPrint hatası oluştu: " ++ e))

/-- Outcome of `pd.read_csv` on the uploaded bytes: an `EmptyDataError`
for a byte-empty upload, or a parsed dataset. -/
inductive ParseOutcome where
  | emptyData
  | ok (df : DataFrame)
deriving DecidableEq

/-- The BeautifulSoup document as the handler touches it: the paragraph
strings (`find_all('p')` with `p_tag.string`, `none` when the tag has no
single string child), whether the two placeholder elements are found by
id, and the content injected into them by the handler. -/
structure Doc where
  paras : List (Option (List Char))
  pieSlot : Bool
  watermarkSlot : Bool
  pieContent : Option ChartsHtml
  watermarkImgSrc : Option String

/-- The external boundaries of one request: the Gemini call (prompt to
response text or failure), HTML parsing and pretty-printing
(BeautifulSoup), the logo file read, and WeasyPrint. -/
structure Deps where
  llm : String → Except String String
  soupParse : List Char → Doc
  serialize : Doc → String
  fs : String → ReadResult
  wp : String → Except String String

/-- The soup-mutation phase (lines 490-520): placeholder cleanup over all
paragraphs, chart-grid injection into the pie-chart slot when present, and
watermark-image injection when the logo was read and the slot is
present. -/
def processSoup (doc : Doc) (row_data : RowData) (logo_base64 : String) : Doc :=
  let doc := { doc with paras := cleanParas doc.paras }
  let doc :=
    if doc.pieSlot then
      { doc with pieContent := some (create_emotion_charts_html (rowDataEmotions row_data)) }
    else doc
  if logo_base64 = "" then doc
  else if doc.watermarkSlot then
    { doc with watermarkImgSrc := some ("data:image/png;base64," ++ logo_base64) }
  else doc

/-- Line 457, `row = df.iloc[1]`: the handler takes the row at positional
index 1 — the second data row — regardless of any grouping; pandas raises
an `IndexError` when the dataset is shorter. -/
def selectRow (df : DataFrame) : Except Exc Row :=
  match df.rows[1]? with
  | none => Except.error (Exc.indexError "single positional indexer is out-of-bounds")
  | some row => Except.ok row

/-- The `try:` block of `generate_report` (lines 427-540).  Success yields
the PDF bytes and the attachment filename (the debug HTML write of lines
524-530 swallows its own errors and has no further effect; the
percent-encoding of the filename for the Content-Disposition header is
left to the HTTP layer). -/
def generate_report_body (deps : Deps) (parse : ParseOutcome) : Except Exc (String × String) :=
  match parse with
  | ParseOutcome.emptyData => Except.error Exc.pdEmptyDataError
  | ParseOutcome.ok df =>
    if ¬ (required_columns.all fun c => df.cols.contains c) then
      Except.error (Exc.httpException 400 ("CSV dosyasında eksik sütunlar var: " ++
        String.intercalate ", " (required_columns.filter fun c => !(df.cols.contains c))))
    else if df.rows.isEmpty then
      Except.error (Exc.httpException 400 "CSV dosyası veri içermiyor.")
    else
      match selectRow df with
      | Except.error e => Except.error e
      | Except.ok row =>
        let current_row_data := buildRowData row
        let formatted_qa_html := format_qa_section current_row_data.soru_cevap
        match generate_llm_prompt current_row_data formatted_qa_html with
        | Except.error e => Except.error e
        | Except.ok prompt =>
          match deps.llm prompt with
          | Except.error e => Except.error (Exc.genericError e)
          | Except.ok text =>
            let raw_html_content :=
              removeSuf "```".data (removePre "```html".data (pyStrip text.data))
            let soup := deps.soupParse raw_html_content
            let logo_base64 := get_image_base64 deps.fs "logo.png"
            let soup := processSoup soup current_row_data logo_base64
            let final_html := deps.serialize soup
            match create_pdf_from_html deps.wp final_html with
            | Except.error e => Except.error e
            | Except.ok pdf_bytes =>
              Except.ok (pdf_bytes,
                current_row_data.kisi_adi ++ "_" ++ current_row_data.mulakat_adi ++ "_Rapor.pdf")

/-- HTTP outcome of one request: a streamed PDF attachment or a JSON error
with a status code and a detail string. -/
inductive HttpResult where
  | streaming (pdf : String) (filename : String)
  | httpError (status : Nat) (detail : String)
deriving DecidableEq

/-- Embedding of the whole `generate_report` handler (lines 422-546).  The
filename check sits before the `try:` block, so its `HTTPException`
reaches the client as a 400.  Everything raised inside the block is
translated by the two `except` clauses: `pandas.errors.EmptyDataError`
becomes a 400, and every other exception — including the handler's own
400 `HTTPException`s, which `except Exception` also catches — becomes a
500 wrapping `str(e)`. -/
def generate_report (deps : Deps) (filename : String) (parse : ParseOutcome) : HttpResult :=
  if pyEndsWith filename ".csv" = false then
    HttpResult.httpError 400 "Hatalı dosya formatı. Lütfen bir .csv dosyası yükleyin."
  else
    match generate_report_body deps parse with
    | Except.ok (pdf, fname) => HttpResult.streaming pdf fname
    | Except.error Exc.pdEmptyDataError => HttpResult.httpError 400 "Yüklenen CSV dosyası boş."
    | Except.error e =>
        HttpResult.httpError 500 ("Rapor oluşturulurken sunucuda bir hata oluştu: " ++ excStr e)

/-! ## Concrete fixtures used by the witnesses. -/

/-- A sample first data row (variant 0, integer-valued numerics so that
every consultation reduces in the kernel). -/
def exRowA : Row :=
  { kisi_adi := "Ayse", mulakat_adi := "Teknik", llm_skoru := 75,
    duygu_mutlu := 10, duygu_kizgin := 20, duygu_igrenme := 5, duygu_korku := 5,
    duygu_uzgun := 10, duygu_saskin := 20, duygu_dogal := 30,
    ekran_disi_sure_sn := 3, ekran_disi_sayisi := 2,
    soru := "Soru 1", cevap := "Cevap 1", tip := 0 }

/-- A sample second data row, distinguishable from the first. -/
def exRowB : Row := { exRowA with soru := "Soru 2", cevap := "Cevap 2" }

/-- A row whose report variant is neither 0 nor 1. -/
def exRowT5 : Row := { exRowA with tip := 5 }

/-- A dataset with all required columns and two data rows. -/
def exDf : DataFrame := { cols := required_columns, rows := [exRowA, exRowB] }

/-- A dataset with all required columns and exactly one data row. -/
def exDfOneRow : DataFrame := { cols := required_columns, rows := [exRowA] }

/-- A dataset with all required columns and no data rows. -/
def exDfNoRows : DataFrame := { cols := required_columns, rows := [] }

/-- The two-row dataset with a different first row. -/
def exDfOtherFirst : DataFrame := { cols := required_columns, rows := [exRowT5, exRowB] }

/-- A dataset whose header is missing the `tip` column. -/
def exDfMissingTip : DataFrame :=
  { cols := ["kisi_adi", "mulakat_adi", "llm_skoru", "duygu_mutlu_%", "duygu_kizgin_%",
             "duygu_igrenme_%", "duygu_korku_%", "duygu_uzgun_%", "duygu_saskin_%",
             "duygu_dogal_%", "ekran_disi_sure_sn", "ekran_disi_sayisi", "soru", "cevap"],
    rows := [exRowA] }

/-- A dataset whose second row carries the unsupported variant 5. -/
def exDfT5 : DataFrame := { cols := required_columns, rows := [exRowA, exRowT5] }

/-- A parsed document with both placeholder slots present and no
paragraphs. -/
def exDoc : Doc :=
  { paras := [], pieSlot := true, watermarkSlot := true,
    pieContent := none, watermarkImgSrc := none }

/-- Well-behaved external dependencies. -/
def exDeps : Deps :=
  { llm := fun _ => Except.ok "yanit", soupParse := fun _ => exDoc,
    serialize := fun _ => "final", fs := fun _ => ReadResult.notFound,
    wp := fun _ => Except.ok "pdf" }

/-- Dependencies whose PDF renderer always fails. -/
def exDepsWpFail : Deps := { exDeps with wp := fun _ => Except.error "kaboom" }

/-- A filesystem holding one logo file. -/
def exFs : String → ReadResult := fun n =>
  if n = "logo.png" then ReadResult.content [137, 80, 78, 71, 13, 10] else ReadResult.notFound

/-- A paragraph text that echoes the first placeholder token. -/
def c4s : List Char := ("\x7b\x7bgenel_bakis_icerik\x7d\x7d Metin".data)

/-- The first placeholder token. -/
def c4ph : List Char := ("\x7b\x7bgenel_bakis_icerik\x7d\x7d".data)

/-- The paragraph content after the token. -/
def c4rest : List Char := (" Metin".data)

/-- Two emotion keys bound in non-canonical order. -/
def c5d : List (String × Rat) := [("duygu_dogal_%", 30), ("duygu_mutlu_%", 10)]

/-- The same bindings in the other order. -/
def c5d' : List (String × Rat) := [("duygu_mutlu_%", 10), ("duygu_dogal_%", 30)]

/-- Five present emotion keys. -/
def c6d : List (String × Rat) :=
  [("duygu_mutlu_%", 10), ("duygu_kizgin_%", 20), ("duygu_igrenme_%", 5),
   ("duygu_korku_%", 5), ("duygu_uzgun_%", 10)]

/-! ## Helper theorems -/

theorem b64index_b64char : ∀ i, i < 64 → b64index (b64char i) = i := by decide

theorem b64char_ne_eq : ∀ i, i < 64 → b64char i ≠ '=' := by decide

theorem b64decode_b64encode :
    ∀ l : List Nat, (∀ x ∈ l, x < 256) → b64decode (b64encode l) = l
  | [], _ => rfl
  | [a], h => by
      have ha : a < 256 := h a (by simp)
      have h1 : a / 4 < 64 := by omega
      have h2 : a % 4 * 16 < 64 := by omega
      simp only [b64encode, b64decode, b64index_b64char _ h1, b64index_b64char _ h2,
        if_true, List.cons.injEq, and_true]
      omega
  | [a, b], h => by
      have ha : a < 256 := h a (by simp)
      have hb : b < 256 := h b (by simp)
      have h1 : a / 4 < 64 := by omega
      have h2 : a % 4 * 16 + b / 16 < 64 := by omega
      have h3 : b % 16 * 4 < 64 := by omega
      simp only [b64encode, b64decode, b64index_b64char _ h1, b64index_b64char _ h2,
        b64index_b64char _ h3, if_neg (b64char_ne_eq _ h3), if_true,
        List.cons.injEq, and_true]
      omega
  | a :: b :: c :: rest, h => by
      have ha : a < 256 := h a (by simp)
      have hb : b < 256 := h b (by simp)
      have hc : c < 256 := h c (by simp)
      have h1 : a / 4 < 64 := by omega
      have h2 : a % 4 * 16 + b / 16 < 64 := by omega
      have h3 : b % 16 * 4 + c / 64 < 64 := by omega
      have h4 : c % 64 < 64 := by omega
      have ih := b64decode_b64encode rest (by intro x hx; exact h x (by simp [hx]))
      simp only [b64encode, b64decode, b64index_b64char _ h1, b64index_b64char _ h2,
        b64index_b64char _ h3, b64index_b64char _ h4,
        if_neg (b64char_ne_eq _ h3), if_neg (b64char_ne_eq _ h4),
        List.cons.injEq]
      refine ⟨by omega, by omega, by omega, ih⟩

theorem makeRows_length : ∀ cells : List ChartCell, ∀ r ∈ makeRows cells, r.length = 4
  | [] => by simp [makeRows]
  | [a] => by simp [makeRows]
  | [a, b] => by simp [makeRows]
  | [a, b, c] => by simp [makeRows]
  | a :: b :: c :: d :: rest => by
      intro r hr
      simp only [makeRows, List.mem_cons] at hr
      rcases hr with rfl | hr
      · rfl
      · exact makeRows_length rest r hr

theorem makeRows_flatten :
    ∀ cells : List ChartCell,
      (makeRows cells).flatten =
        cells.map some ++ List.replicate (4 * ((cells.length + 3) / 4) - cells.length) none
  | [] => by simp [makeRows]
  | [a] => by simp [makeRows, List.replicate]
  | [a, b] => by simp [makeRows, List.replicate]
  | [a, b, c] => by simp [makeRows, List.replicate]
  | a :: b :: c :: d :: rest => by
      have ih := makeRows_flatten rest
      simp only [makeRows, List.flatten_cons, ih, List.map_cons,
        List.cons_append, List.nil_append, List.cons.injEq, true_and]
      congr 2
      simp only [List.length_cons]
      omega

theorem chartsContentList_keys (emotion_data : List (String × Rat)) :
    (chartsContentList emotion_data).map ChartCell.key =
      emotion_keys_ordered.filter fun k => (emotion_data.lookup k).isSome := by
  unfold chartsContentList
  induction emotion_keys_ordered with
  | nil => rfl
  | cons k ks ih =>
      cases h : emotion_data.lookup k with
      | none => simp [List.filterMap_cons, List.filter_cons, h, ih]
      | some v => simp [List.filterMap_cons, List.filter_cons, h, ih]

theorem chartsContentList_congr (d d' : List (String × Rat))
    (h : ∀ k ∈ emotion_keys_ordered, d.lookup k = d'.lookup k) :
    chartsContentList d = chartsContentList d' := by
  unfold chartsContentList
  revert h
  induction emotion_keys_ordered with
  | nil => intro _; rfl
  | cons k ks ih =>
      intro h
      have hk := h k (by simp)
      simp only [List.filterMap_cons, hk]
      have hrest := ih fun x hx => h x (by simp [hx])
      cases d'.lookup k with
      | none => simpa using hrest
      | some v => simpa using hrest

theorem chartsContentList_eq_nil (d : List (String × Rat)) :
    chartsContentList d = [] ↔ ∀ k ∈ emotion_keys_ordered, d.lookup k = none := by
  unfold chartsContentList
  rw [List.filterMap_eq_nil_iff]
  constructor
  · intro h k hk
    have := h k hk
    cases hd : d.lookup k with
    | none => rfl
    | some v => rw [hd] at this; simp at this
  · intro h k hk
    rw [h k hk]

theorem placeholders_no_mutual :
    ∀ p ∈ placeholders_to_remove, ∀ q ∈ placeholders_to_remove,
      p.isPrefixOf q = true → p = q := by decide

theorem isPrefix_of_le_length {α : Type} (a b t : List α)
    (ha : a <+: t) (hb : b <+: t) (hl : a.length ≤ b.length) : a <+: b := by
  have ea : a = t.take a.length := List.prefix_iff_eq_take.mp ha
  have eb : b = t.take b.length := List.prefix_iff_eq_take.mp hb
  have : b.take a.length = a := by
    rw [eb, List.take_take, Nat.min_eq_left hl, ← ea]
  rw [← this]
  exact List.take_prefix a.length b

theorem placeholders_prefix_unique {p q t : List Char}
    (hp : p ∈ placeholders_to_remove) (hq : q ∈ placeholders_to_remove)
    (hpt : p <+: t) (hqt : q <+: t) : p = q := by
  rcases Nat.le_total p.length q.length with hl | hl
  · exact placeholders_no_mutual p hp q hq
      ( List.isPrefixOf_iff_prefix.mpr (isPrefix_of_le_length p q t hpt hqt hl))
  · exact (placeholders_no_mutual q hq p hp
      ( List.isPrefixOf_iff_prefix.mpr (isPrefix_of_le_length q p t hqt hpt hl))).symm

theorem cleanPara_of_token_start (s ph : List Char)
    (hmem : ph ∈ placeholders_to_remove) (hpre : ph <+: pyStrip s) :
    cleanPara s = pyStrip ((pyStrip s).drop ph.length) := by
  have key : placeholders_to_remove.find? (fun q => q.isPrefixOf (pyStrip s)) = some ph := by
    cases hfind : placeholders_to_remove.find? (fun q => q.isPrefixOf (pyStrip s)) with
    | none =>
        exfalso
        have := List.find?_eq_none.mp hfind ph hmem
        exact this ( List.isPrefixOf_iff_prefix.mpr hpre)
    | some q =>
        have hqmem : q ∈ placeholders_to_remove := List.mem_of_find?_eq_some hfind
        have hq0 : q.isPrefixOf (pyStrip s) = true := by
          have := List.find?_some hfind
          simpa using this
        have hqpre : q <+: pyStrip s := List.isPrefixOf_iff_prefix.mp hq0
        rw [placeholders_prefix_unique hqmem hmem hqpre hpre]
  simp only [cleanPara, key]

theorem pyStrip_isInfix (l : List Char) : pyStrip l <:+: l := by
  unfold pyStrip
  have h1 : l.dropWhile Char.isWhitespace <:+ l := List.dropWhile_suffix _
  have h2 : (l.dropWhile Char.isWhitespace).reverse.dropWhile Char.isWhitespace <:+
      (l.dropWhile Char.isWhitespace).reverse := List.dropWhile_suffix _
  have h3 : ((l.dropWhile Char.isWhitespace).reverse.dropWhile Char.isWhitespace).reverse <+:
      l.dropWhile Char.isWhitespace := by
    have h4 := List.reverse_prefix.mpr h2
    rwa [List.reverse_reverse] at h4
  exact (h3.isInfix).trans (h1.isInfix)

theorem cleanPara_no_token (s rest ph : List Char)
    (hmem : ph ∈ placeholders_to_remove)
    (heq : pyStrip s = ph ++ rest)
    (hfree : ∀ t ∈ placeholders_to_remove, ¬ t <:+: rest) :
    ∀ t ∈ placeholders_to_remove, ¬ t <:+: cleanPara s := by
  have hpre : ph <+: pyStrip s := ⟨rest, heq.symm⟩
  rw [cleanPara_of_token_start s ph hmem hpre, heq, List.drop_left]
  intro t ht hinf
  exact hfree t ht (hinf.trans (pyStrip_isInfix rest))

theorem cleanPara_of_free (s : List Char)
    (hfree : ∀ t ∈ placeholders_to_remove, ¬ t <:+: s) :
    cleanPara s = s := by
  have hnone : placeholders_to_remove.find? (fun q => q.isPrefixOf (pyStrip s)) = none := by
    rw [List.find?_eq_none]
    intro q hq hbad
    have hq' : q <+: pyStrip s := List.isPrefixOf_iff_prefix.mp (by simpa using hbad)
    exact hfree q hq ((hq'.isInfix).trans (pyStrip_isInfix s))
  simp only [cleanPara, hnone]

/-! ## Claim theorems -/

/-- Claim C1 (code-bug evidence).  The claim says a dataset missing a
required column, or containing no rows, yields an HTTP 400 with the
specific detail, not a 500.  In the code both 400 `HTTPException`s are
raised inside the `try:` block whose bare `except Exception` re-raises
them as a 500 wrapping `str(e)`, so — for every choice of external
dependencies — the client receives a 500 whose detail wraps the intended
400 message.  This theorem evaluates the handler at the two failing
inputs. -/
theorem C1_validation_400_swallowed_into_500 :
    (∀ deps : Deps,
      generate_report deps "data.csv" (ParseOutcome.ok exDfMissingTip) =
        HttpResult.httpError 500
          "Rapor oluşturulurken sunucuda bir hata oluştu: 400: CSV dosyasında eksik sütunlar var: tip") ∧
    (∀ deps : Deps,
      generate_report deps "data.csv" (ParseOutcome.ok exDfNoRows) =
        HttpResult.httpError 500
          "Rapor oluşturulurken sunucuda bir hata oluştu: 400: CSV dosyası veri içermiyor.") :=
  ⟨fun _ => rfl, fun _ => rfl⟩

/-- Claim C2.  In single-row mode the handler selects the row at
positional index 1 — the second row — regardless of grouping (the selected
row depends only on position 1 of the dataset), rounds each numeric field
of that row individually to 2 decimals, converts the off-screen count and
the variant to integers, and retains exactly that row's single
(question, answer) pair. -/
theorem C2_single_row_mode_selects_index_1 (df df' : DataFrame) (row : Row)
    (h : df.rows[1]? = some row) (h' : df'.rows[1]? = df.rows[1]?) :
    selectRow df = Except.ok row ∧
    selectRow df' = selectRow df ∧
    buildRowData row =
      { kisi_adi := row.kisi_adi
        mulakat_adi := row.mulakat_adi
        llm_skoru := round2 row.llm_skoru
        duygu_mutlu := round2 row.duygu_mutlu
        duygu_kizgin := round2 row.duygu_kizgin
        duygu_igrenme := round2 row.duygu_igrenme
        duygu_korku := round2 row.duygu_korku
        duygu_uzgun := round2 row.duygu_uzgun
        duygu_saskin := round2 row.duygu_saskin
        duygu_dogal := round2 row.duygu_dogal
        ekran_disi_sure_sn := round2 row.ekran_disi_sure_sn
        ekran_disi_sayisi := pyInt row.ekran_disi_sayisi
        soru_cevap := [(row.soru, row.cevap)]
        tip := pyInt row.tip } := by
  refine ⟨?_, ?_, rfl⟩
  · simp [selectRow, h]
  · simp [selectRow, h', h]

/-- Witness for C2: on the concrete two-row dataset the handler selects
the second row and keeps its single question/answer pair. -/
theorem C2_witness :
    selectRow exDf = Except.ok exRowB ∧
    (buildRowData exRowB).soru_cevap = [("Soru 2", "Cevap 2")] := by
  have h := C2_single_row_mode_selects_index_1 exDf exDf exRowB rfl rfl
  refine ⟨h.1, ?_⟩
  rw [h.2.2]
  rfl

/-- Claim C3.  For every upload whose filename does not end in ".csv"
(case-sensitive) the handler answers 400 with the invalid-file-format
detail; the check precedes all other work, which the quantification over
the parse outcome and the external dependencies makes exact: no parsing
result and no model behaviour can influence the response, so no model
call is made. -/
theorem C3_non_csv_rejected_before_processing (deps : Deps) (filename : String)
    (parse : ParseOutcome) (h : pyEndsWith filename ".csv" = false) :
    generate_report deps filename parse =
      HttpResult.httpError 400 "Hatalı dosya formatı. Lütfen bir .csv dosyası yükleyin." := by
  simp [generate_report, h]

/-- Witness for C3 at the filename "data.txt". -/
theorem C3_witness :
    generate_report exDeps "data.txt" ParseOutcome.emptyData =
      HttpResult.httpError 400 "Hatalı dosya formatı. Lütfen bir .csv dosyası yükleyin." :=
  C3_non_csv_rejected_before_processing exDeps "data.txt" ParseOutcome.emptyData (by decide)

/-- Claim C8.  For every readable image file, Base64-decoding the Asset
Encoder's output reproduces the file bytes exactly; for a nonexistent
path, or any other read error, it returns the empty string instead of
raising. -/
theorem C8_asset_encoder_roundtrip (fs : String → ReadResult) (name : String) :
    (∀ bytes, fs name = ReadResult.content bytes → (∀ x ∈ bytes, x < 256) →
      b64decode (get_image_base64 fs name).data = bytes) ∧
    (fs name = ReadResult.notFound → get_image_base64 fs name = "") ∧
    (∀ m, fs name = ReadResult.readError m → get_image_base64 fs name = "") := by
  refine ⟨?_, ?_, ?_⟩
  · intro bytes hread hb
    unfold get_image_base64
    rw [hread]
    exact b64decode_b64encode bytes hb
  · intro h
    unfold get_image_base64
    rw [h]
  · intro m h
    unfold get_image_base64
    rw [h]

/-- Witness for C8: round trip on a concrete PNG-header byte sequence, and
the empty string for a missing path. -/
theorem C8_witness :
    b64decode (get_image_base64 exFs "logo.png").data = [137, 80, 78, 71, 13, 10] ∧
    get_image_base64 exFs "eksik.png" = "" := by
  have h1 := C8_asset_encoder_roundtrip exFs "logo.png"
  have h2 := C8_asset_encoder_roundtrip exFs "eksik.png"
  exact ⟨h1.1 _ (by decide) (by decide), h2.2.1 (by decide)⟩

/-- Claim C4.  After the model response is parsed, every paragraph whose
text begins with one of the five placeholder tokens has the token removed
in place, leaving only the content after it; consequently a response in
which every paragraph carries a token only as an echoed prefix (or not at
all) ends with no token left anywhere. -/
theorem C4_placeholder_token_cleanup (s rest ph : List Char)
    (hmem : ph ∈ placeholders_to_remove) :
    (ph <+: pyStrip s → cleanPara s = pyStrip ((pyStrip s).drop ph.length)) ∧
    (pyStrip s = ph ++ rest → (∀ t ∈ placeholders_to_remove, ¬ t <:+: rest) →
      ∀ t ∈ placeholders_to_remove, ¬ t <:+: cleanPara s) ∧
    ((∀ t ∈ placeholders_to_remove, ¬ t <:+: s) →
      ∀ t ∈ placeholders_to_remove, ¬ t <:+: cleanPara s) := by
  refine ⟨cleanPara_of_token_start s ph hmem, cleanPara_no_token s rest ph hmem, ?_⟩
  intro hfree
  rw [cleanPara_of_free s hfree]
  exact hfree

/-- Witness for C4: a paragraph that echoes the overview token in front of
its generated text is cleaned, and no token survives the cleanup. -/
theorem C4_witness :
    cleanPara c4s = pyStrip ((pyStrip c4s).drop c4ph.length) ∧
    ∀ t ∈ placeholders_to_remove, ¬ t <:+: cleanPara c4s := by
  have h := C4_placeholder_token_cleanup c4s c4rest c4ph (by decide)
  exact ⟨h.1 (by decide), h.2.1 (by decide) (by decide)⟩

/-- Claim C5.  The chart grid lists exactly the present emotion keys, in
the fixed canonical order; the output is invariant under reordering of the
input mapping (it depends only on the key lookups); and an absent key
never produces a chart cell. -/
theorem C5_canonical_order_and_absent_keys (d d' : List (String × Rat)) :
    (chartsContentList d).map ChartCell.key =
      (emotion_keys_ordered.filter fun k => (d.lookup k).isSome) ∧
    ((∀ k ∈ emotion_keys_ordered, d.lookup k = d'.lookup k) →
      create_emotion_charts_html d = create_emotion_charts_html d') ∧
    (∀ k, d.lookup k = none → ∀ cell ∈ chartsContentList d, cell.key ≠ k) := by
  refine ⟨chartsContentList_keys d, ?_, ?_⟩
  · intro h
    unfold create_emotion_charts_html
    rw [chartsContentList_congr d d' h]
  · intro k hk cell hcell heq
    have hmem : cell.key ∈ (chartsContentList d).map ChartCell.key :=
      List.mem_map_of_mem _ hcell
    rw [chartsContentList_keys d] at hmem
    have hsome := List.of_mem_filter hmem
    rw [heq, hk] at hsome
    simp at hsome

/-- Witness for C5: two keys given in non-canonical order come out in
canonical order, and the grid is the same for the reordered mapping. -/
theorem C5_witness :
    (chartsContentList c5d).map ChartCell.key = ["duygu_mutlu_%", "duygu_dogal_%"] ∧
    create_emotion_charts_html c5d = create_emotion_charts_html c5d' := by
  have h := C5_canonical_order_and_absent_keys c5d c5d'
  exact ⟨h.1.trans (by decide), h.2.1 (by decide)⟩

/-- Claim C6.  With at least one present emotion key the renderer emits
the 4-column table: every row has exactly 4 cells and, flattened, the grid
is the chart cells followed by exactly 4 times the ceiling of n/4 minus n
empty padding cells; with no present key it emits the informational
paragraph, never a table. -/
theorem C6_grid_rows_of_four (d : List (String × Rat)) :
    (chartsContentList d ≠ [] →
      create_emotion_charts_html d = ChartsHtml.table (makeRows (chartsContentList d)) ∧
      (∀ r ∈ makeRows (chartsContentList d), r.length = 4) ∧
      (makeRows (chartsContentList d)).flatten =
        (chartsContentList d).map some ++
          List.replicate
            (4 * (((chartsContentList d).length + 3) / 4) - (chartsContentList d).length)
            none) ∧
    ((∀ k ∈ emotion_keys_ordered, d.lookup k = none) →
      create_emotion_charts_html d =
        ChartsHtml.noData "Görselleştirilecek duygu verisi bulunamadı.") := by
  constructor
  · intro hne
    have hempty : (chartsContentList d).isEmpty = false := by
      simpa [List.isEmpty_iff] using hne
    refine ⟨?_, makeRows_length _, makeRows_flatten _⟩
    unfold create_emotion_charts_html
    simp [hempty]
  · intro hall
    have hnil : chartsContentList d = [] := (chartsContentList_eq_nil d).mpr hall
    unfold create_emotion_charts_html
    simp [hnil]

/-- Witness for C6: five present keys give rows of exactly 4 cells, and
the empty mapping gives the informational paragraph. -/
theorem C6_witness :
    create_emotion_charts_html c6d = ChartsHtml.table (makeRows (chartsContentList c6d)) ∧
    (∀ r ∈ makeRows (chartsContentList c6d), r.length = 4) ∧
    create_emotion_charts_html [] =
      ChartsHtml.noData "Görselleştirilecek duygu verisi bulunamadı." := by
  have h := C6_grid_rows_of_four c6d
  have h2 := C6_grid_rows_of_four []
  have hne : chartsContentList c6d ≠ [] := by decide
  exact ⟨(h.1 hne).1, (h.1 hne).2.1, h2.2 (by decide)⟩

/-- Claim C7.  A WeasyPrint failure is re-raised by `create_pdf_from_html`
as the generic PDF-rendering-failed `ValueError` carrying the underlying
message, and the endpoint then answers 500 with a detail that wraps that
message; the response is an error, so no PDF bytes are streamed. -/
theorem C7_pdf_failure_propagates_as_500 (deps : Deps) (df : DataFrame) (row : Row)
    (m t : String)
    (hcols : (required_columns.all fun c => df.cols.contains c) = true)
    (hrow : df.rows[1]? = some row)
    (htip : pyInt row.tip = 0)
    (hllm : ∀ p, deps.llm p = Except.ok t)
    (hwp : ∀ html, deps.wp html = Except.error m) :
    (∀ html, create_pdf_from_html deps.wp html =
        Except.error (Exc.valueError ("PDF oluşturulurken WeasyPrint hatası oluştu: " ++ m))) ∧
    generate_report deps "data.csv" (ParseOutcome.ok df) =
      HttpResult.httpError 500
        ("Rapor oluşturulurken sunucuda bir hata oluştu: PDF oluşturulurken WeasyPrint hatası oluştu: " ++ m) := by
  have hpdf : ∀ html, create_pdf_from_html deps.wp html =
      Except.error (Exc.valueError ("PDF oluşturulurken WeasyPrint hatası oluştu: " ++ m)) := by
    intro html
    unfold create_pdf_from_html
    rw [hwp html]
  refine ⟨hpdf, ?_⟩
  have hne : df.rows.isEmpty = false := by
    cases hrows : df.rows with
    | nil => rw [hrows] at hrow; simp at hrow
    | cons x xs => simp
  have hsel : selectRow df = Except.ok row := by simp [selectRow, hrow]
  have hbt : (buildRowData row).tip = 0 := htip
  have hcsv : pyEndsWith "data.csv" ".csv" = true := by decide
  unfold generate_report generate_report_body
  simp only [hcsv, hcols, hne, hsel, Bool.true_eq_false, not_true, if_false, if_neg,
    Bool.false_eq_true, ite_false, ite_true, not_false_iff, if_true]
  simp only [generate_llm_prompt, hbt, if_true, ite_true, hllm, hpdf, excStr]
  rw [← String.append_assoc]
  rfl

/-- Witness for C7: with a renderer that always fails with "kaboom" on an
otherwise valid request, the endpoint answers 500 carrying "kaboom". -/
theorem C7_witness :
    generate_report exDepsWpFail "data.csv" (ParseOutcome.ok exDf) =
      HttpResult.httpError 500
        ("Rapor oluşturulurken sunucuda bir hata oluştu: PDF oluşturulurken WeasyPrint hatası oluştu: kaboom") := by
  have h := C7_pdf_failure_propagates_as_500 exDepsWpFail exDf exRowB "kaboom" "yanit"
    (by decide) rfl (by decide) (fun p => rfl) (fun html => rfl)
  exact h.2

/-- Claim C9.  `generate_llm_prompt` is defined only for variants 0 and 1:
any other integer variant leaves `prompt_instructions` unassigned and the
call fails with an `UnboundLocalError`; a CSV that passes all column
validation but whose selected row carries such a variant therefore ends in
an HTTP 500. -/
theorem C9_unsupported_variant_fails (rd : RowData) (qa : String) (deps : Deps)
    (df : DataFrame) (row : Row)
    (h0 : rd.tip ≠ 0) (h1 : rd.tip ≠ 1)
    (hcols : (required_columns.all fun c => df.cols.contains c) = true)
    (hrow : df.rows[1]? = some row)
    (ht0 : pyInt row.tip ≠ 0) (ht1 : pyInt row.tip ≠ 1) :
    generate_llm_prompt rd qa = Except.error (Exc.unboundLocalError
      "cannot access local variable prompt_instructions where it is not associated with a value") ∧
    generate_report deps "data.csv" (ParseOutcome.ok df) =
      HttpResult.httpError 500
        "Rapor oluşturulurken sunucuda bir hata oluştu: cannot access local variable prompt_instructions where it is not associated with a value" := by
  constructor
  · simp [generate_llm_prompt, h0, h1]
  · have hne : df.rows.isEmpty = false := by
      cases hrows : df.rows with
      | nil => rw [hrows] at hrow; simp at hrow
      | cons x xs => simp
    have hsel : selectRow df = Except.ok row := by simp [selectRow, hrow]
    have hbt0 : (buildRowData row).tip ≠ 0 := ht0
    have hbt1 : (buildRowData row).tip ≠ 1 := ht1
    have hcsv : pyEndsWith "data.csv" ".csv" = true := by decide
    unfold generate_report generate_report_body
    simp only [hcsv, hcols, hne, hsel, Bool.true_eq_false, not_true, if_false, if_neg,
      Bool.false_eq_true, ite_false, ite_true, not_false_iff, if_true]
    simp only [generate_llm_prompt, hbt0, hbt1, ite_false, if_false, excStr]
    rfl

/-- Witness for C9: a dataset whose second row has variant 5 makes the
prompt builder fail and the request end in a 500. -/
theorem C9_witness :
    generate_llm_prompt (buildRowData exRowT5) "" = Except.error (Exc.unboundLocalError
      "cannot access local variable prompt_instructions where it is not associated with a value") ∧
    generate_report exDeps "data.csv" (ParseOutcome.ok exDfT5) =
      HttpResult.httpError 500
        "Rapor oluşturulurken sunucuda bir hata oluştu: cannot access local variable prompt_instructions where it is not associated with a value" := by
  have h := C9_unsupported_variant_fails (buildRowData exRowT5) "" exDeps exDfT5 exRowT5
    (by decide) (by decide) (by decide) rfl (by decide) (by decide)
  exact h

/-- Claim C10.  The service needs at least two data rows: a dataset that
passes all validation but holds exactly one row makes the hard-coded
index-1 selection raise an `IndexError`, answered as a 500; and whenever a
report is produced the first row's data never appears in it, because the
whole response is a function of position 1 of the dataset alone (two
datasets with the same columns and the same second row give identical
responses, whatever their first rows are). -/
theorem C10_two_rows_required (deps : Deps) (fn : String)
    (df df' : DataFrame) (row0 row : Row) :
    ((required_columns.all fun c => df.cols.contains c) = true → df.rows = [row0] →
      generate_report deps "data.csv" (ParseOutcome.ok df) =
        HttpResult.httpError 500
          "Rapor oluşturulurken sunucuda bir hata oluştu: single positional indexer is out-of-bounds") ∧
    (df.cols = df'.cols → df.rows[1]? = some row → df'.rows[1]? = some row →
      generate_report deps fn (ParseOutcome.ok df) =
        generate_report deps fn (ParseOutcome.ok df')) := by
  constructor
  · intro hcols hrows
    have hsel : selectRow df = Except.error
        (Exc.indexError "single positional indexer is out-of-bounds") := by
      simp [selectRow, hrows]
    have hne : df.rows.isEmpty = false := by rw [hrows]; simp
    have hcsv : pyEndsWith "data.csv" ".csv" = true := by decide
    unfold generate_report generate_report_body
    simp only [hcsv, hcols, hne, hsel, Bool.true_eq_false, not_true, if_false, if_neg,
      Bool.false_eq_true, ite_false, ite_true, not_false_iff, if_true, excStr]
    rfl
  · intro hcolseq h1 h2
    have hsel1 : selectRow df = Except.ok row := by simp [selectRow, h1]
    have hsel2 : selectRow df' = Except.ok row := by simp [selectRow, h2]
    have hne1 : df.rows.isEmpty = false := by
      cases hrows : df.rows with
      | nil => rw [hrows] at h1; simp at h1
      | cons x xs => simp
    have hne2 : df'.rows.isEmpty = false := by
      cases hrows : df'.rows with
      | nil => rw [hrows] at h2; simp at h2
      | cons x xs => simp
    have hbody : generate_report_body deps (ParseOutcome.ok df) =
        generate_report_body deps (ParseOutcome.ok df') := by
      simp only [generate_report_body]
      rw [hcolseq]
      by_cases hc : (required_columns.all fun c => df'.cols.contains c)
      · simp only [hc, hne1, hne2, hsel1, hsel2, Bool.true_eq_false, not_true, if_false,
          Bool.false_eq_true, ite_false, ite_true, not_false_iff, if_true]
      · simp only [Bool.not_eq_true] at hc
        simp only [hc, Bool.false_eq_true, not_false_iff, ite_true, if_true]
    unfold generate_report
    rw [hbody]

/-- Witness for C10: the one-row dataset yields the 500 out-of-bounds
response, and changing only the first row of the two-row dataset leaves
the response unchanged. -/
theorem C10_witness :
    generate_report exDeps "data.csv" (ParseOutcome.ok exDfOneRow) =
      HttpResult.httpError 500
        "Rapor oluşturulurken sunucuda bir hata oluştu: single positional indexer is out-of-bounds" ∧
    generate_report exDeps "data.csv" (ParseOutcome.ok exDf) =
      generate_report exDeps "data.csv" (ParseOutcome.ok exDfOtherFirst) := by
  refine ⟨?_, ?_⟩
  · exact (C10_two_rows_required exDeps "data.csv" exDfOneRow exDfOneRow exRowA exRowA).1
      (by decide) rfl
  · exact (C10_two_rows_required exDeps "data.csv" exDf exDfOtherFirst exRowA exRowB).2
      rfl rfl rfl

end Rapor
